import Mathlib

/-!
Verification development for the AlphaFold singularity launch script
(`run_singularity.py`).  The script is embedded shallowly: the POSIX path
helpers it calls (`os.path.join`, `os.path.basename`, `os.path.dirname`,
`os.path.normpath`, `os.path.abspath`) are modelled faithfully on strings,
the mount generator `generate_mount` and the plan assembly in `main` are
translated function by function, and the two side effects of `main`
(printing the command, spawning one subprocess) are modelled as an explicit
effect trace.  `os.path.abspath` reads the current working directory, so it
takes the working directory `cwd` as an explicit parameter.
-/

namespace RunSingularity

/-- Checks whether the character list `t` is an initial segment of `l`
(character-by-character model of Python `str.startswith` after taking
`String.data`). -/
def strHeadMatches : List Char → List Char → Bool
  | [], _ => true
  | _ :: _, [] => false
  | a :: as, b :: bs => a == b && strHeadMatches as bs

/-- Model of Python `s.startswith(t)`. -/
def py_startswith (s t : String) : Bool :=
  strHeadMatches t.data s.data

/-- Model of Python `s.endswith(t)`. -/
def py_endswith (s t : String) : Bool :=
  strHeadMatches t.data.reverse s.data.reverse

/-- Model of Python `sep.join(xs)`. -/
def pyStrJoin (sep : String) : List String → String
  | [] => ""
  | [x] => x
  | x :: y :: xs => x ++ sep ++ pyStrJoin sep (y :: xs)

/-- Model of Python `str(b)` for a boolean (as interpolated by an f-string):
`True` or `False` with a capital letter. -/
def pyBoolRepr (b : Bool) : String :=
  if b then "True" else "False"

/-- Model of Python `p.split('/')` on the underlying character list. -/
def splitChar : List Char → List (List Char)
  | [] => [[]]
  | c :: cs =>
    if c = '/' then [] :: splitChar cs
    else
      match splitChar cs with
      | r :: rs => (c :: r) :: rs
      | [] => [[c]]

/-- Model of `posixpath.join(a, b)` (two-argument case): if `b` is absolute
it replaces `a`, otherwise it is appended with a `/` separator unless `a` is
empty or already ends in `/`. -/
def join2 (a b : String) : String :=
  if py_startswith b "/" then b
  else if a = "" ∨ py_endswith a "/" then a ++ b
  else a ++ "/" ++ b

/-- Model of `posixpath.basename(p)`: everything after the last `/`. -/
def basename (p : String) : String :=
  ⟨(p.data.reverse.takeWhile (fun c => c != '/')).reverse⟩

/-- Model of `posixpath.dirname(p)`: the part up to and including the last
`/`, with trailing slashes stripped unless the result is all slashes. -/
def dirname (p : String) : String :=
  let head := (p.data.reverse.dropWhile (fun c => c != '/')).reverse
  if head ≠ [] ∧ head.any (fun c => c != '/') then
    ⟨(head.reverse.dropWhile (fun c => c == '/')).reverse⟩
  else ⟨head⟩

/-- Model of `posixpath.normpath(p)`: collapse repeated separators and
resolve `.` and `..` components, preserving one or exactly two leading
slashes. -/
def normpath (p : String) : String :=
  if p = "" then "."
  else
    let initialSlashes : Nat :=
      if py_startswith p "/" then
        (if py_startswith p "//" ∧ ¬(py_startswith p "///" = true) then 2 else 1)
      else 0
    let comps : List String := (splitChar p.data).map (fun l => (⟨l⟩ : String))
    let newComps := comps.foldl
      (fun acc comp =>
        if comp = "" ∨ comp = "." then acc
        else if comp ≠ ".." ∨ (initialSlashes = 0 ∧ acc = []) ∨ acc.getLast? = some ".." then
          acc ++ [comp]
        else if acc ≠ [] then acc.dropLast
        else acc)
      []
    let res := (⟨List.replicate initialSlashes '/'⟩ : String) ++ pyStrJoin "/" newComps
    if res = "" then "." else res

/-- Model of `posixpath.abspath(p)` under working directory `cwd`:
join a relative path onto `cwd`, then normalise. -/
def abspath (cwd p : String) : String :=
  normpath (if py_startswith p "/" then p else join2 cwd p)

/-- Constant `CONTAINER_IMAGE` from the script. -/
def CONTAINER_IMAGE : String := "docker://catgumag/alphafold:latest"

/-- Constant `ROOT_MOUNT_DIRECTORY` from the script. -/
def ROOT_MOUNT_DIRECTORY : String := "/mnt"

/-- Constant `AVAILABLE_MODELS` from the script. -/
def AVAILABLE_MODELS : List String :=
  ["model_1", "model_2", "model_3", "model_4", "model_5"]

/-- The mount target computed on line 130 of the script:
`os.path.join(ROOT_MOUNT_DIRECTORY, mount_name)`. -/
def containerTarget (mount_name : String) : String :=
  join2 ROOT_MOUNT_DIRECTORY mount_name

/-- Translation of `generate_mount(mount_name, path, read_only)`: returns the
mount line `source:target:opts` (source is the parent directory of the
resolved path) and the container-visible path `target/basename`. -/
def generate_mount (cwd : String) (mount_name : String) (path : String)
    (read_only : Bool := true) : String × String :=
  (dirname (abspath cwd path) ++ ":" ++ containerTarget mount_name ++ ":" ++
      (if read_only then "ro" else "rw"),
   join2 (containerTarget mount_name) (basename (abspath cwd path)))

/-- The parsed command-line options of the script (the fields of the
`argparse` namespace used by `main`). -/
structure Args where
  fasta_paths : List String
  max_template_date : String
  preset : String
  benchmark : Bool
  models : List String
  data_dir : String
  output_dir : String

/-- The default values installed by `parse_arguments` for every option other
than the required `--fasta-paths`; `today` stands for
`datetime.today().strftime("%Y-%m-%d")`. -/
def defaultArgs (today : String) (fasta_paths : List String) : Args :=
  { fasta_paths := fasta_paths
    max_template_date := today
    preset := "full_dbs"
    benchmark := false
    models := AVAILABLE_MODELS
    data_dir := "./databases/"
    output_dir := "results/" }

/-- The `arg_paths` list built in `main` (lines 63-72): database paths
derived from `data_dir` plus `data_dir` itself, in source order. -/
def databaseArgPaths (args : Args) : List (String × String) :=
  [("uniref90_database_path", join2 (join2 args.data_dir "uniref90") "uniref90.fasta"),
   ("mgnify_database_path", join2 (join2 args.data_dir "mgnify") "mgy_clusters.fa"),
   ("uniclust30_database_path",
     join2 (join2 (join2 args.data_dir "uniclust30") "uniclust30_2018_08") "uniclust30_2018_08"),
   ("bfd_database_path",
     join2 (join2 args.data_dir "bfd") "bfd_metaclust_clu_complete_id30_c90_final_seq.sorted_opt"),
   ("pdb70_database_path", join2 (join2 args.data_dir "pdb70") "pdb70"),
   ("data_dir", args.data_dir),
   ("template_mmcif_dir", join2 (join2 args.data_dir "pdb_mmcif") "mmcif_files"),
   ("obsolete_pdbs_path", join2 (join2 args.data_dir "pdb_mmcif") "obsolete.dat")]

/-- The fasta-path loop of `main` (lines 56-59): one `generate_mount` call
per input path, with mount name `fasta_path_{i}`. -/
def fastaResults (cwd : String) (args : Args) : List (String × String) :=
  args.fasta_paths.enum.map
    (fun ip => generate_mount cwd ("fasta_path_" ++ Nat.repr ip.1) ip.2)

/-- The database loop of `main` (lines 74-78): paths that are non-empty
(Python truthiness) are mounted under their argument name. -/
def dbResults (cwd : String) (args : Args) : List (String × String × String) :=
  ((databaseArgPaths args).filter (fun np => np.2 != "")).map
    (fun np => (np.1, generate_mount cwd np.1 np.2))

/-- The output mount of `main` (lines 80-82): mounted with
`read_only=False`. -/
def outputResult (cwd : String) (args : Args) : String × String :=
  generate_mount cwd "output" args.output_dir false

/-- The complete `mounts` list accumulated by `main`: fasta mounts, then
database mounts, then the output mount. -/
def planMounts (cwd : String) (args : Args) : List String :=
  (fastaResults cwd args).map Prod.fst
    ++ (dbResults cwd args).map (fun r => r.2.1)
    ++ [(outputResult cwd args).1]

/-- The mount names passed to `generate_mount` by `main`, in call order. -/
def planMountNames (args : Args) : List String :=
  args.fasta_paths.enum.map (fun ip => "fasta_path_" ++ Nat.repr ip.1)
    ++ ((databaseArgPaths args).filter (fun np => np.2 != "")).map Prod.fst
    ++ ["output"]

/-- The complete `command_args` list accumulated by `main` (lines 60, 78,
86-95). -/
def commandArgs (cwd : String) (args : Args) : List String :=
  ["--fasta_paths=" ++ pyStrJoin "," ((fastaResults cwd args).map Prod.snd)]
    ++ (dbResults cwd args).map (fun r => "--" ++ r.1 ++ "=" ++ r.2.2)
    ++ ["--output_dir=" ++ (outputResult cwd args).2,
        "--model_names=" ++ pyStrJoin "," args.models,
        "--max_template_date=" ++ args.max_template_date,
        "--preset=" ++ args.preset,
        "--benchmark=" ++ pyBoolRepr args.benchmark,
        "--logtostderr"]

/-- The `env` dictionary of `main` (lines 98-101), in insertion order. -/
def envVars : List (String × String) :=
  [("TF_FORCE_UNIFIED_MEMORY", "1"), ("XLA_PYTHON_CLIENT_MEM_FRACTION", "4.0")]

/-- The final `command` list of `main` (lines 104-114). -/
def finalCommand (cwd : String) (args : Args) : List String :=
  ["singularity", "exec", "--nv", "--bind", pyStrJoin "," (planMounts cwd args)]
    ++ envVars.map (fun kv => "--env=\"" ++ kv.1 ++ "=" ++ kv.2 ++ "\"")
    ++ [CONTAINER_IMAGE, "/app/run_alphafold.sh"]
    ++ commandArgs cwd args

/-- Observable side effects of the script. -/
inductive Effect where
  | print (s : String)
  | runProcess (cmd : List String)
  deriving DecidableEq

/-- The effect trace of `main` (lines 116-118): print the space-joined
command, then spawn it once as a subprocess. -/
def mainEffects (cwd : String) (args : Args) : List Effect :=
  [Effect.print ("Executing: " ++ pyStrJoin " " (finalCommand cwd args)),
   Effect.runProcess (finalCommand cwd args)]

/-- The script's own exit status.  `main` discards the `CompletedProcess`
returned by `subprocess.run` and returns `None`, so the interpreter exits
with status 0 regardless of the child's exit code. -/
def scriptExitCode (_cwd : String) (_args : Args) (_childExit : Int) : Int := 0

/-- The access-mode field of a mount line: the text after the last `:`. -/
def mountMode (m : String) : String :=
  ⟨(m.data.reverse.takeWhile (fun c => c != ':')).reverse⟩

/-- Strings with equal character data are equal. -/
theorem data_inj {a b : String} (h : a.data = b.data) : a = b :=
  congrArg String.mk h

/-- The character data of an appended string is the appended data. -/
theorem data_append_str (a b : String) : (a ++ b).data = a.data ++ b.data := by
  cases a
  cases b
  rfl

/-- Cancelling a common list on the left of an append. -/
theorem list_append_left_cancel {α : Type} {a x y : List α} (h : a ++ x = a ++ y) :
    x = y := by
  induction a with
  | nil => exact h
  | cons c cs ih =>
    injection h with h1 h2
    exact ih h2

/-- Indexing an append below the length of the first part. -/
theorem get?_append_left {α : Type} {l₁ l₂ : List α} {n : Nat} (h : n < l₁.length) :
    (l₁ ++ l₂).get? n = l₁.get? n := by
  induction l₁ generalizing n with
  | nil => simp at h
  | cons a as ih =>
    cases n with
    | zero => rfl
    | succ m =>
      simp only [List.cons_append, List.get?_cons_succ]
      exact ih (Nat.lt_of_succ_lt_succ h)

/-- Two appends with a character mismatch at a common index differ. -/
theorem str_append_ne (a b x y : String) (n : Nat) (ha : n < a.data.length)
    (hb : n < b.data.length) (hne : a.data.get? n ≠ b.data.get? n) :
    a ++ x ≠ b ++ y := by
  intro h
  apply hne
  have hd : a.data ++ x.data = b.data ++ y.data := by
    have h2 := congrArg String.data h
    rwa [data_append_str, data_append_str] at h2
  calc a.data.get? n = (a.data ++ x.data).get? n := (get?_append_left ha).symm
    _ = (b.data ++ y.data).get? n := by rw [hd]
    _ = b.data.get? n := get?_append_left hb

/-- A needle fails to match the head of `a ++ x` whenever it disagrees with
`a` at some index inside `a`. -/
theorem shm_false_of_mismatch (t a x : List Char) (n : Nat) (hn : n < t.length)
    (ha : n < a.length) (h : t.get? n ≠ a.get? n) :
    strHeadMatches t (a ++ x) = false := by
  induction t generalizing a n with
  | nil => simp at hn
  | cons c cs ih =>
    cases a with
    | nil => simp at ha
    | cons b bs =>
      cases n with
      | zero =>
        have hcb : c ≠ b := fun he => h (by simp [he])
        simp [strHeadMatches, hcb]
      | succ m =>
        have hrec := ih bs m (Nat.lt_of_succ_lt_succ hn) (Nat.lt_of_succ_lt_succ ha)
          (by simpa using h)
        simp [strHeadMatches, hrec]

/-- `py_startswith (A ++ v) t` is false when `t` disagrees with the fixed
part `A` at some index. -/
theorem pysw_false (A v t : String) (n : Nat) (hn : n < t.data.length)
    (ha : n < A.data.length) (h : t.data.get? n ≠ A.data.get? n) :
    py_startswith (A ++ v) t = false := by
  unfold py_startswith
  rw [data_append_str]
  exact shm_false_of_mismatch _ _ _ n hn ha h

/-- A basename never starts with a slash (it contains no slash at all). -/
theorem basename_no_slash (p : String) : py_startswith (basename p) "/" = false := by
  unfold py_startswith basename
  show strHeadMatches "/".data ((p.data.reverse.takeWhile (fun c => c != '/')).reverse)
      = false
  cases hl : (p.data.reverse.takeWhile (fun c => c != '/')).reverse with
  | nil => rfl
  | cons c cs =>
    have hc : c ∈ p.data.reverse.takeWhile (fun c => c != '/') := by
      have hm : c ∈ (p.data.reverse.takeWhile (fun c => c != '/')).reverse := by
        rw [hl]
        exact List.mem_cons_self c cs
      simpa using hm
    have hne := List.mem_takeWhile_imp hc
    have hcs : c ≠ '/' := by simpa using hne
    have h2 : ¬('/' = c) := fun he => hcs he.symm
    show (('/' == c) && true) = false
    simp [h2]

/-- Evaluation of `join2` in the generic case: non-absolute second argument,
non-empty first argument without a trailing slash. -/
theorem join2_sep (a b : String) (hb : py_startswith b "/" = false)
    (ha1 : a ≠ "") (ha2 : py_endswith a "/" = false) :
    join2 a b = a ++ "/" ++ b := by
  have h1 : ¬(py_startswith b "/" = true) := by
    rw [hb]
    exact Bool.false_ne_true
  have h2 : ¬(a = "" ∨ py_endswith a "/" = true) := by
    intro h
    rcases h with h | h
    · exact ha1 h
    · rw [ha2] at h
      exact Bool.false_ne_true h
  unfold join2
  rw [if_neg h1, if_neg h2]

/-- `takeWhile` stops exactly at the first failing element. -/
theorem takeWhile_append_stop (p : Char → Bool) (a : List Char) (c : Char)
    (b : List Char) (ha : ∀ d ∈ a, p d = true) (hc : p c = false) :
    (a ++ c :: b).takeWhile p = a := by
  induction a with
  | nil => simp [List.takeWhile_cons, hc]
  | cons d ds ih =>
    simp only [List.cons_append, List.takeWhile_cons, ha d (List.mem_cons_self d ds),
      if_true]
    rw [ih (fun e he => ha e (List.mem_cons_of_mem d he))]

/-- The mode field of a `source:target:opts` mount line is `opts`, for any
`opts` not containing `:`. -/
theorem mountMode_concat (s t o : String) (ho : ∀ c ∈ o.data, (c != ':') = true) :
    mountMode (s ++ ":" ++ t ++ ":" ++ o) = o := by
  refine data_inj ?_
  show ((s ++ ":" ++ t ++ ":" ++ o).data.reverse.takeWhile (fun c => c != ':')).reverse
      = o.data
  have hcolon : (":" : String).data = [':'] := rfl
  have hd : (s ++ ":" ++ t ++ ":" ++ o).data.reverse
      = o.data.reverse ++ ':' :: (t.data.reverse ++ ':' :: s.data.reverse) := by
    simp [data_append_str, hcolon]
  rw [hd, takeWhile_append_stop _ _ _ _ (fun d hd' => ho d (by simpa using hd'))
    (by decide), List.reverse_reverse]

/-- The mode field of a generated mount line is `ro` or `rw` according to
the `read_only` argument. -/
theorem mountMode_generate (cwd n p : String) (ro : Bool) :
    mountMode ((generate_mount cwd n p ro).1) = (if ro then "ro" else "rw") := by
  cases ro
  · exact mountMode_concat _ _ _ (by decide)
  · exact mountMode_concat _ _ _ (by decide)

/-- A filter over a list none of whose elements satisfy the predicate is
empty. -/
theorem filter_none {α : Type} (p : α → Bool) (l : List α)
    (h : ∀ a ∈ l, p a = false) : l.filter p = [] := by
  induction l with
  | nil => rfl
  | cons a as ih =>
    rw [List.filter_cons, if_neg (by rw [h a (List.mem_cons_self a as)]; exact
      Bool.false_ne_true)]
    exact ih fun b hb => h b (List.mem_cons_of_mem a hb)

/-- No mount name generated by `main` starts with a slash, so
`os.path.join` never discards the root mount directory. -/
theorem planName_no_slash (args : Args) (n : String)
    (hn : n ∈ planMountNames args) : py_startswith n "/" = false := by
  rw [planMountNames] at hn
  rcases List.mem_append.mp hn with h | h
  · rcases List.mem_append.mp h with h | h
    · obtain ⟨ip, _, rfl⟩ := List.mem_map.mp h
      exact pysw_false "fasta_path_" (Nat.repr ip.1) "/" 0 (by decide) (by decide)
        (by decide)
    · obtain ⟨np, hmem, rfl⟩ := List.mem_map.mp h
      have hbase : np ∈ databaseArgPaths args := List.mem_of_mem_filter hmem
      have h1 : np.1 ∈ (databaseArgPaths args).map Prod.fst :=
        List.mem_map_of_mem Prod.fst hbase
      simp only [databaseArgPaths, List.map_cons, List.map_nil, List.mem_cons,
        List.not_mem_nil, or_false] at h1
      rcases h1 with h1 | h1 | h1 | h1 | h1 | h1 | h1 | h1 <;> rw [h1] <;> decide
  · simp only [List.mem_singleton] at h
    subst h
    decide

/-- The only element of `command_args` that starts with `--benchmark` is the
benchmark flag itself, formatted from the Python boolean. -/
theorem commandArgs_benchmark_shape (cwd : String) (args : Args) (s : String)
    (hs : s ∈ commandArgs cwd args)
    (hb : py_startswith s "--benchmark" = true) :
    s = "--benchmark=" ++ pyBoolRepr args.benchmark := by
  rw [commandArgs] at hs
  rcases List.mem_append.mp hs with h | h
  · rcases List.mem_append.mp h with h | h
    · simp only [List.mem_singleton] at h
      subst h
      rw [pysw_false "--fasta_paths=" _ "--benchmark" 2 (by decide) (by decide)
        (by decide)] at hb
      exact absurd hb (by decide)
    · obtain ⟨r, hr, rfl⟩ := List.mem_map.mp h
      rw [dbResults] at hr
      obtain ⟨np, hnp, rfl⟩ := List.mem_map.mp hr
      have hbase : np ∈ databaseArgPaths args := List.mem_of_mem_filter hnp
      have h1 : np.1 ∈ (databaseArgPaths args).map Prod.fst :=
        List.mem_map_of_mem Prod.fst hbase
      simp only [databaseArgPaths, List.map_cons, List.map_nil, List.mem_cons,
        List.not_mem_nil, or_false] at h1
      rcases h1 with h1 | h1 | h1 | h1 | h1 | h1 | h1 | h1 <;> rw [h1] at hb
      · rw [pysw_false (("--" ++ "uniref90_database_path") ++ "=") _ "--benchmark" 2
          (by decide) (by decide) (by decide)] at hb
        exact absurd hb (by decide)
      · rw [pysw_false (("--" ++ "mgnify_database_path") ++ "=") _ "--benchmark" 2
          (by decide) (by decide) (by decide)] at hb
        exact absurd hb (by decide)
      · rw [pysw_false (("--" ++ "uniclust30_database_path") ++ "=") _ "--benchmark" 2
          (by decide) (by decide) (by decide)] at hb
        exact absurd hb (by decide)
      · rw [pysw_false (("--" ++ "bfd_database_path") ++ "=") _ "--benchmark" 3
          (by decide) (by decide) (by decide)] at hb
        exact absurd hb (by decide)
      · rw [pysw_false (("--" ++ "pdb70_database_path") ++ "=") _ "--benchmark" 2
          (by decide) (by decide) (by decide)] at hb
        exact absurd hb (by decide)
      · rw [pysw_false (("--" ++ "data_dir") ++ "=") _ "--benchmark" 2
          (by decide) (by decide) (by decide)] at hb
        exact absurd hb (by decide)
      · rw [pysw_false (("--" ++ "template_mmcif_dir") ++ "=") _ "--benchmark" 2
          (by decide) (by decide) (by decide)] at hb
        exact absurd hb (by decide)
      · rw [pysw_false (("--" ++ "obsolete_pdbs_path") ++ "=") _ "--benchmark" 2
          (by decide) (by decide) (by decide)] at hb
        exact absurd hb (by decide)
  · simp only [List.mem_cons, List.not_mem_nil, or_false] at h
    rcases h with rfl | rfl | rfl | rfl | rfl | rfl
    · rw [pysw_false "--output_dir=" _ "--benchmark" 2 (by decide) (by decide)
        (by decide)] at hb
      exact absurd hb (by decide)
    · rw [pysw_false "--model_names=" _ "--benchmark" 2 (by decide) (by decide)
        (by decide)] at hb
      exact absurd hb (by decide)
    · rw [pysw_false "--max_template_date=" _ "--benchmark" 2 (by decide) (by decide)
        (by decide)] at hb
      exact absurd hb (by decide)
    · rw [pysw_false "--preset=" _ "--benchmark" 2 (by decide) (by decide)
        (by decide)] at hb
      exact absurd hb (by decide)
    · rfl
    · exact absurd hb (by decide)

/-- Concrete arguments of the end-to-end example run: `--fasta-paths
/a/seq1.fasta /b/seq2.fasta --data-dir /db --output-dir /out`, every other
option at its `parse_arguments` default (the template date standing for the
run day's date, on which nothing below depends). -/
def exampleArgs : Args :=
  { fasta_paths := ["/a/seq1.fasta", "/b/seq2.fasta"]
    max_template_date := "2026-10-12"
    preset := "full_dbs"
    benchmark := false
    models := AVAILABLE_MODELS
    data_dir := "/db"
    output_dir := "/out" }

/-- C1 (counterexample): in the end-to-end example run the assembled
invocation does not contain the mount `/out:/mnt/output:rw` claimed by the
spec; `generate_mount` mounts the parent directory of `/out`, which is `/`,
so the actual output mount is `/:/mnt/output:rw`. -/
theorem claim1_output_mount_counterexample :
    "/out:/mnt/output:rw" ∉ planMounts "/cwd" exampleArgs ∧
      "/:/mnt/output:rw" ∈ planMounts "/cwd" exampleArgs := by
  decide

/-- C1 (amended): the end-to-end example run produces exactly the mounts
`/a:/mnt/fasta_path_0:ro`, `/b:/mnt/fasta_path_1:ro`, one mount per
database-path entry (each mounting the parent directory of the database
path, and `/:/mnt/data_dir:ro` for the data directory itself), and the
output mount `/:/mnt/output:rw` (the parent directory of `/out`); the flag
`--fasta_paths=/mnt/fasta_path_0/seq1.fasta,/mnt/fasta_path_1/seq2.fasta`
appears in the final command. -/
theorem claim1_invocation_example :
    planMounts "/cwd" exampleArgs =
        ["/a:/mnt/fasta_path_0:ro",
         "/b:/mnt/fasta_path_1:ro",
         "/db/uniref90:/mnt/uniref90_database_path:ro",
         "/db/mgnify:/mnt/mgnify_database_path:ro",
         "/db/uniclust30/uniclust30_2018_08:/mnt/uniclust30_database_path:ro",
         "/db/bfd:/mnt/bfd_database_path:ro",
         "/db/pdb70:/mnt/pdb70_database_path:ro",
         "/:/mnt/data_dir:ro",
         "/db/pdb_mmcif:/mnt/template_mmcif_dir:ro",
         "/db/pdb_mmcif:/mnt/obsolete_pdbs_path:ro",
         "/:/mnt/output:rw"] ∧
      "--fasta_paths=/mnt/fasta_path_0/seq1.fasta,/mnt/fasta_path_1/seq2.fasta"
        ∈ finalCommand "/cwd" exampleArgs := by
  exact ⟨rfl, by decide⟩

/-- C2 (counterexample): for the host path `/a/b/..` and mount name `n` the
container-visible path is `/mnt/n/a`, not the fixed root joined with `n`
and `basename("/a/b/..") = ".."`; and the path `/c/b/..` has the same
basename but a different container-visible path, so the result does depend
on the directory component. -/
theorem claim2_counterexample :
    (generate_mount "/w" "n" "/a/b/..").2
        ≠ join2 (containerTarget "n") (basename "/a/b/..") ∧
      basename "/a/b/.." = basename "/c/b/.." ∧
      (generate_mount "/w" "n" "/a/b/..").2 ≠ (generate_mount "/w" "n" "/c/b/..").2 := by
  decide

/-- C2 (amended): for every host path `P` that is absolute and already
normalised (`normpath P = P`), the container-visible path computed by
`generate_mount` equals the fixed mount root joined with the mount name
joined with `basename(P)`, and it depends only on the mount name and
`basename(P)`: any other absolute normalised path with the same basename
yields the same container-visible path.  (In general the code uses
`basename(abspath(P))`, which differs from `basename(P)` on non-normalised
paths.) -/
theorem claim2_container_path (cwd N P : String) (ro : Bool)
    (habs : py_startswith P "/" = true) (hnorm : normpath P = P) :
    (generate_mount cwd N P ro).2 = join2 (containerTarget N) (basename P) ∧
      ∀ Q : String, py_startswith Q "/" = true → normpath Q = Q →
        basename Q = basename P →
        (generate_mount cwd N Q ro).2 = (generate_mount cwd N P ro).2 := by
  have hP : abspath cwd P = P := by
    unfold abspath
    rw [if_pos habs, hnorm]
  constructor
  · show join2 (containerTarget N) (basename (abspath cwd P)) = _
    rw [hP]
  · intro Q h1 h2 h3
    have hQ : abspath cwd Q = Q := by
      unfold abspath
      rw [if_pos h1, h2]
    show join2 (containerTarget N) (basename (abspath cwd Q))
        = join2 (containerTarget N) (basename (abspath cwd P))
    rw [hP, hQ, h3]

/-- Witness for C2 (amended) at the concrete input `P = /a/seq.fasta`,
`N = n`. -/
theorem claim2_container_path_witness :
    py_startswith "/a/seq.fasta" "/" = true ∧
      normpath "/a/seq.fasta" = "/a/seq.fasta" ∧
      (generate_mount "/w" "n" "/a/seq.fasta").2
        = join2 (containerTarget "n") (basename "/a/seq.fasta") :=
  ⟨by decide, by decide,
    (claim2_container_path "/w" "n" "/a/seq.fasta" true (by decide) (by decide)).1⟩

/-- Concrete arguments with two fasta inputs sharing the basename
`seq.fasta` in different directories. -/
def dupBasenameArgs : Args :=
  { fasta_paths := ["/a/seq.fasta", "/b/seq.fasta"]
    max_template_date := "2026-10-12"
    preset := "full_dbs"
    benchmark := false
    models := AVAILABLE_MODELS
    data_dir := "/db"
    output_dir := "/out" }

/-- C3 (counterexample): for two fasta inputs with the same basename but
different directories the planner neither rejects nor collides: it
assembles the full command (the fasta flag is present) and the two
container-visible paths are distinct. -/
theorem claim3_counterexample :
    (fastaResults "/cwd" dupBasenameArgs).map Prod.snd
        = ["/mnt/fasta_path_0/seq.fasta", "/mnt/fasta_path_1/seq.fasta"] ∧
      ("/mnt/fasta_path_0/seq.fasta" : String) ≠ "/mnt/fasta_path_1/seq.fasta" ∧
      "--fasta_paths=/mnt/fasta_path_0/seq.fasta,/mnt/fasta_path_1/seq.fasta"
        ∈ finalCommand "/cwd" dupBasenameArgs := by
  decide

/-- C3 (amended): the planner performs no duplicate-basename validation and
never produces colliding container-visible paths for the two inputs: for
every pair of fasta paths the two container-visible paths are distinct,
because each input is placed under its own mount name `fasta_path_i`; a
duplicate basename is passed through to the downstream tool unvalidated. -/
theorem claim3_distinct_container_paths (cwd p q t pr dd od : String) (b : Bool)
    (ms : List String) :
    (fastaResults cwd ⟨[p, q], t, pr, b, ms, dd, od⟩).map Prod.snd
        = [join2 (containerTarget "fasta_path_0") (basename (abspath cwd p)),
           join2 (containerTarget "fasta_path_1") (basename (abspath cwd q))] ∧
      join2 (containerTarget "fasta_path_0") (basename (abspath cwd p))
        ≠ join2 (containerTarget "fasta_path_1") (basename (abspath cwd q)) := by
  have hn0 : ("fasta_path_" ++ Nat.repr 0 : String) = "fasta_path_0" := by decide
  have hn1 : ("fasta_path_" ++ Nat.repr 1 : String) = "fasta_path_1" := by decide
  constructor
  · show [join2 (containerTarget ("fasta_path_" ++ Nat.repr 0)) (basename (abspath cwd p)),
          join2 (containerTarget ("fasta_path_" ++ Nat.repr 1)) (basename (abspath cwd q))]
        = _
    rw [hn0, hn1]
  · have e0 : containerTarget "fasta_path_0" = "/mnt/fasta_path_0" := by decide
    have e1 : containerTarget "fasta_path_1" = "/mnt/fasta_path_1" := by decide
    rw [e0, e1, join2_sep _ _ (basename_no_slash _) (by decide) (by decide),
      join2_sep _ _ (basename_no_slash _) (by decide) (by decide)]
    exact str_append_ne _ _ _ _ 16 (by decide) (by decide) (by decide)

/-- C4: in every run, exactly one generated mount has access mode `rw` and
it is the output mount; every other mount has access mode `ro`. -/
theorem claim4_single_rw_mount (cwd : String) (args : Args) :
    (planMounts cwd args).filter (fun m => mountMode m == "rw")
        = [(outputResult cwd args).1] ∧
      ∀ m ∈ (planMounts cwd args).dropLast, mountMode m = "ro" := by
  have hfasta : ∀ m ∈ (fastaResults cwd args).map Prod.fst, mountMode m = "ro" := by
    intro m hm
    rw [fastaResults, List.map_map] at hm
    obtain ⟨ip, _, rfl⟩ := List.mem_map.mp hm
    exact mountMode_generate cwd _ ip.2 true
  have hdb : ∀ m ∈ (dbResults cwd args).map (fun r => r.2.1), mountMode m = "ro" := by
    intro m hm
    rw [dbResults, List.map_map] at hm
    obtain ⟨np, _, rfl⟩ := List.mem_map.mp hm
    exact mountMode_generate cwd np.1 np.2 true
  have hout : mountMode ((outputResult cwd args).1) = "rw" :=
    mountMode_generate cwd "output" args.output_dir false
  constructor
  · rw [planMounts, List.filter_append, List.filter_append,
      filter_none _ _ (fun m hm => by rw [hfasta m hm]; decide),
      filter_none _ _ (fun m hm => by rw [hdb m hm]; decide),
      List.filter_cons, if_pos (by rw [hout]; decide)]
    rfl
  · rw [planMounts, List.dropLast_concat]
    intro m hm
    rcases List.mem_append.mp hm with h | h
    · exact hfasta m h
    · exact hdb m h

/-- Witness for C3 (amended) at the concrete inputs `/a/seq.fasta` and
`/b/seq.fasta`. -/
theorem claim3_distinct_container_paths_witness :
    (fastaResults "/w"
          ⟨["/a/seq.fasta", "/b/seq.fasta"], "2026-10-12", "full_dbs", false,
            AVAILABLE_MODELS, "/db", "/out"⟩).map Prod.snd
        = [join2 (containerTarget "fasta_path_0") (basename (abspath "/w" "/a/seq.fasta")),
           join2 (containerTarget "fasta_path_1") (basename (abspath "/w" "/b/seq.fasta"))] ∧
      join2 (containerTarget "fasta_path_0") (basename (abspath "/w" "/a/seq.fasta"))
        ≠ join2 (containerTarget "fasta_path_1") (basename (abspath "/w" "/b/seq.fasta")) :=
  claim3_distinct_container_paths "/w" "/a/seq.fasta" "/b/seq.fasta" "2026-10-12"
    "full_dbs" "/db" "/out" false AVAILABLE_MODELS

/-- Witness for C4 at the concrete example run: the first mount is among
the non-final mounts and its mode evaluates to `ro`. -/
theorem claim4_single_rw_mount_witness :
    "/a:/mnt/fasta_path_0:ro" ∈ (planMounts "/cwd" exampleArgs).dropLast ∧
      mountMode "/a:/mnt/fasta_path_0:ro" = "ro" :=
  ⟨by decide, (claim4_single_rw_mount "/cwd" exampleArgs).2 _ (by decide)⟩

/-- C5: the spawned command line always has the shape `singularity exec
--nv --bind <comma-joined mounts> --env="K=V" (the two fixed environment
variables) <image> /app/run_alphafold.sh <flags...>`, and the rewritten
flags end with `--logtostderr`. -/
theorem claim5_command_shape (cwd : String) (args : Args) :
    finalCommand cwd args
        = ["singularity", "exec", "--nv", "--bind",
           pyStrJoin "," (planMounts cwd args),
           "--env=\"TF_FORCE_UNIFIED_MEMORY=1\"",
           "--env=\"XLA_PYTHON_CLIENT_MEM_FRACTION=4.0\"",
           CONTAINER_IMAGE, "/app/run_alphafold.sh"] ++ commandArgs cwd args ∧
      (commandArgs cwd args).getLast? = some "--logtostderr" := by
  constructor
  · rfl
  · rw [commandArgs, List.getLast?_append_of_ne_nil _ (by simp)]
    rfl

/-- C6: the script prints the assembled command, then spawns it exactly
once as a child process, and the script's own exit status does not depend
on the child's exit code. -/
theorem claim6_effects_and_exit (cwd : String) (args : Args) :
    mainEffects cwd args
        = [Effect.print ("Executing: " ++ pyStrJoin " " (finalCommand cwd args)),
           Effect.runProcess (finalCommand cwd args)] ∧
      ((mainEffects cwd args).filter
          (fun e => match e with
            | Effect.runProcess _ => true
            | _ => false)).length = 1 ∧
      ∀ c₁ c₂ : Int, scriptExitCode cwd args c₁ = scriptExitCode cwd args c₂ :=
  ⟨rfl, rfl, fun _ _ => rfl⟩

/-- C7: any two distinct mount names occurring in a run have distinct
container target paths; the target is the deterministic function
`containerTarget` of the mount name and the fixed root alone. -/
theorem claim7_distinct_targets (args : Args) (n₁ n₂ : String)
    (h₁ : n₁ ∈ planMountNames args) (h₂ : n₂ ∈ planMountNames args)
    (hne : n₁ ≠ n₂) :
    containerTarget n₁ ≠ containerTarget n₂ := by
  have s₁ := planName_no_slash args n₁ h₁
  have s₂ := planName_no_slash args n₂ h₂
  have e₁ : containerTarget n₁ = "/mnt" ++ "/" ++ n₁ := by
    show join2 "/mnt" n₁ = _
    exact join2_sep _ _ s₁ (by decide) (by decide)
  have e₂ : containerTarget n₂ = "/mnt" ++ "/" ++ n₂ := by
    show join2 "/mnt" n₂ = _
    exact join2_sep _ _ s₂ (by decide) (by decide)
  intro h
  rw [e₁, e₂] at h
  have hd := congrArg String.data h
  rw [data_append_str ("/mnt" ++ "/") n₁, data_append_str ("/mnt" ++ "/") n₂] at hd
  exact hne (data_inj (list_append_left_cancel hd))

/-- Concrete single-input default arguments used by witnesses. -/
def witnessArgs : Args := defaultArgs "2026-10-12" ["/a/seq1.fasta"]

/-- Witness for C7 at the concrete run `witnessArgs` and the mount names
`fasta_path_0` and `output`. -/
theorem claim7_distinct_targets_witness :
    "fasta_path_0" ∈ planMountNames witnessArgs ∧
      "output" ∈ planMountNames witnessArgs ∧
      containerTarget "fasta_path_0" ≠ containerTarget "output" :=
  ⟨by decide, by decide,
    claim7_distinct_targets witnessArgs "fasta_path_0" "output" (by decide)
      (by decide) (by decide)⟩

/-- C8: when `--models` is omitted, the parsed model list is the full
`AVAILABLE_MODELS` list and the assembled `--model_names` flag lists the
five model names in declared order. -/
theorem claim8_default_models (cwd today : String) (fasta_paths : List String) :
    (defaultArgs today fasta_paths).models = AVAILABLE_MODELS ∧
      pyStrJoin "," AVAILABLE_MODELS = "model_1,model_2,model_3,model_4,model_5" ∧
      ("--model_names=" ++ pyStrJoin "," (defaultArgs today fasta_paths).models)
        ∈ commandArgs cwd (defaultArgs today fasta_paths) := by
  refine ⟨rfl, by decide, ?_⟩
  rw [commandArgs]
  exact List.mem_append_right _ (List.Mem.tail _ (List.Mem.head _))

/-- C9: the per-path mount computation is a pure function of the working
directory, mount name, path and access mode: computing it twice on the same
inputs yields the identical mount line and container-visible path. -/
theorem claim9_generate_mount_pure (cwd mount_name path : String)
    (read_only : Bool) :
    generate_mount cwd mount_name path read_only
        = generate_mount cwd mount_name path read_only ∧
      (generate_mount cwd mount_name path read_only).1
          = (generate_mount cwd mount_name path read_only).1 ∧
      (generate_mount cwd mount_name path read_only).2
          = (generate_mount cwd mount_name path read_only).2 :=
  ⟨rfl, rfl, rfl⟩

/-- C10: the benchmark option appears in the assembled flags exactly as
`--benchmark=True` (flag given) or `--benchmark=False` (flag omitted), with
Python boolean capitalisation; the lowercase spellings and the bare flag
never appear. -/
theorem claim10_benchmark_flag (cwd : String) (args : Args) :
    (args.benchmark = true → "--benchmark=True" ∈ commandArgs cwd args) ∧
      (args.benchmark = false → "--benchmark=False" ∈ commandArgs cwd args) ∧
      "--benchmark=true" ∉ commandArgs cwd args ∧
      "--benchmark=false" ∉ commandArgs cwd args ∧
      "--benchmark" ∉ commandArgs cwd args := by
  refine ⟨?_, ?_, ?_, ?_, ?_⟩
  · intro hb
    have h : ("--benchmark=True" : String)
        = "--benchmark=" ++ pyBoolRepr args.benchmark := by
      rw [hb]
      decide
    rw [h, commandArgs]
    exact List.mem_append_right _
      (List.Mem.tail _ (List.Mem.tail _ (List.Mem.tail _ (List.Mem.tail _
        (List.Mem.head _)))))
  · intro hb
    have h : ("--benchmark=False" : String)
        = "--benchmark=" ++ pyBoolRepr args.benchmark := by
      rw [hb]
      decide
    rw [h, commandArgs]
    exact List.mem_append_right _
      (List.Mem.tail _ (List.Mem.tail _ (List.Mem.tail _ (List.Mem.tail _
        (List.Mem.head _)))))
  · intro hmem
    have h := commandArgs_benchmark_shape cwd args _ hmem (by decide)
    cases hb : args.benchmark <;> rw [hb] at h <;> exact absurd h (by decide)
  · intro hmem
    have h := commandArgs_benchmark_shape cwd args _ hmem (by decide)
    cases hb : args.benchmark <;> rw [hb] at h <;> exact absurd h (by decide)
  · intro hmem
    have h := commandArgs_benchmark_shape cwd args _ hmem (by decide)
    cases hb : args.benchmark <;> rw [hb] at h <;> exact absurd h (by decide)

/-- Concrete arguments with the benchmark flag given. -/
def benchmarkArgs : Args :=
  { fasta_paths := ["/a/seq1.fasta"]
    max_template_date := "2026-10-12"
    preset := "full_dbs"
    benchmark := true
    models := AVAILABLE_MODELS
    data_dir := "/db"
    output_dir := "/out" }

/-- Witness for C10 at a concrete run with `--benchmark` given. -/
theorem claim10_benchmark_flag_witness :
    "--benchmark=True" ∈ commandArgs "/cwd" benchmarkArgs :=
  (claim10_benchmark_flag "/cwd" benchmarkArgs).1 rfl

end RunSingularity
